import Mathlib

/-
Shallow embedding of the content-analysis-and-repurposing pipeline of the
Smart Content Repurposing backend (backend/src/services): the local NLP
engine (local_ai_processor.py), the Hugging Face provider adapter
(huggingface_processor.py) and the Gemini provider adapter (ai_processor.py),
together with theorems settling the frozen claims about them.

Conventions of the embedding:
- Python dict literals are embedded as association lists `List (String × PyVal)`
  so that key presence/absence is expressible.
- External collaborators (the NLTK tokenizers and stop-word corpus, the
  persistence layer, the HTTP backend, the generative ranking model, the
  wall clock) are parameters of the embedded functions.
- Python `str` operations are embedded by structural Lean functions over the
  code-point list (`String.data`), matching Python's code-point semantics
  (`len`, slicing, `lower`, `strip`, `split`, substring containment); the
  character classes (`isalnum`, `lower`, whitespace) are the ASCII fragment,
  which is exact for every concrete input used in the theorems below.
- The source file local_ai_processor.py stores its emoji as double-encoded
  (mojibake) character sequences; the embedding reproduces those exact code
  points, since Python's `len` counts them individually.
-/

namespace Spec2Proof

/-- Python values, as needed by the embedded dict-shaped returns. -/
inductive PyVal where
  | none
  | bool (b : Bool)
  | int (n : Int)
  | str (s : String)
  | list (xs : List PyVal)
  | dict (kvs : List (String × PyVal))

/-- Whether a Python value is `None`. -/
def PyVal.isNone : PyVal → Bool
  | .none => true
  | _ => false

/-- Python `str.lower` (ASCII fragment): lower-case every character. -/
def pyLower (s : String) : String := String.mk (s.data.map Char.toLower)

/-- Python slicing `s[:n]`: the first `n` code points. -/
def pyTake (s : String) (n : Nat) : String := String.mk (s.data.take n)

/-- Python `str.strip()`: drop whitespace from both ends. -/
def pyStrip (s : String) : String :=
  String.mk (((s.data.dropWhile Char.isWhitespace).reverse.dropWhile Char.isWhitespace).reverse)

/-- Python `str.isalnum()`: non-empty and all characters alphanumeric. -/
def pyIsAlnum (s : String) : Bool := !s.data.isEmpty && s.data.all Char.isAlphanum

/-- Check whether `needle` occurs as a contiguous run inside a character list. -/
def charsContain (needle : List Char) : List Char → Bool
  | [] => needle.isEmpty
  | c :: cs => List.isPrefixOf needle (c :: cs) || charsContain needle cs

/-- Python substring containment `sub in s`. -/
def pyInStr (sub s : String) : Bool := charsContain sub.data s.data

/-- Python `sep.join(xs)`. -/
def pyJoin (sep : String) : List String → String
  | [] => ""
  | [x] => x
  | x :: y :: xs => x ++ sep ++ pyJoin sep (y :: xs)

/-- Helper for `pySplitWs`: split a character list on whitespace runs,
`cur` holding the reversed current word. -/
def splitWsAux : List Char → List Char → List String
  | [], [] => []
  | [], cur => [String.mk cur.reverse]
  | c :: cs, cur =>
    if c.isWhitespace then
      match cur with
      | [] => splitWsAux cs []
      | _ => String.mk cur.reverse :: splitWsAux cs []
    else splitWsAux cs (c :: cur)

/-- Python `str.split()` (no argument): split on whitespace runs, no empties. -/
def pySplitWs (s : String) : List String := splitWsAux s.data []

/-- Helper for `pySplitSpace`: split a character list at every single space. -/
def splitSpaceAux : List Char → List Char → List String
  | [], cur => [String.mk cur.reverse]
  | c :: cs, cur =>
    if c = ' ' then String.mk cur.reverse :: splitSpaceAux cs []
    else splitSpaceAux cs (c :: cur)

/-- Splitting at single spaces; NLTK `word_tokenize` agrees with this on plain
space-separated alphabetic text, which is what the concrete instantiations
below use. -/
def pySplitSpace (s : String) : List String := splitSpaceAux s.data []

/-- Python `str.title()` (ASCII fragment): upper-case each letter that does not
follow a letter, lower-case the rest. -/
def pyTitleAux : Bool → List Char → List Char
  | _, [] => []
  | prevCased, c :: cs =>
    if c.isAlpha then (if prevCased then c.toLower else c.toUpper) :: pyTitleAux true cs
    else c :: pyTitleAux false cs

/-- Python `str.title()` on a string. -/
def pyTitle (s : String) : String := String.mk (pyTitleAux false s.data)

/-- The external NLTK collaborator used by `LocalAIProcessor`: sentence
tokenizer, word tokenizer, and the English stop-word corpus. They are
parameters of the embedding; the local engine is a pure function of them. -/
structure NLTK where
  sent_tokenize : String → List String
  word_tokenize : String → List String
  stopwords : List String

namespace LocalAIProcessor

/-- local_ai_processor.py lines 29-35: tokenize the lower-cased content and
keep alphanumeric non-stop-word tokens of length > 2. -/
def filtered_words (nl : NLTK) (content : String) : List String :=
  (nl.word_tokenize (pyLower content)).filter
    (fun w => pyIsAlnum w && !nl.stopwords.contains w && w.length > 2)

/-- Helper for `uniqueFirst`: `seen` accumulates words already emitted. -/
def uniqueFirstAux : List String → List String → List String
  | [], _ => []
  | w :: ws, seen =>
    if seen.contains w then uniqueFirstAux ws seen
    else w :: uniqueFirstAux ws (w :: seen)

/-- The distinct words of a list in first-occurrence order: the key order of
Python's `collections.Counter` dictionary. -/
def uniqueFirst (ws : List String) : List String := uniqueFirstAux ws []

/-- The items of `Counter(fw)` with their insertion index:
`(word, count, first-occurrence rank)`. -/
def counter_items (fw : List String) : List (String × Nat × Nat) :=
  (uniqueFirst fw).enum.map (fun p => (p.2, fw.count p.2, p.1))

/-- The ordering used by `Counter.most_common`: count descending, ties kept in
insertion (first-occurrence) order. CPython's `most_common` is documented as
`sorted(items, key=count, reverse=True)[:n]`, a stable descending sort, which
on items carrying distinct insertion ranks is exactly a sort by this relation. -/
def rankRel (a b : String × Nat × Nat) : Prop :=
  b.2.1 < a.2.1 ∨ (a.2.1 = b.2.1 ∧ a.2.2 ≤ b.2.2)

instance : DecidableRel rankRel := fun a b => by
  unfold rankRel; infer_instance

instance : IsTotal (String × Nat × Nat) rankRel :=
  ⟨by intro a b; unfold rankRel; omega⟩

instance : IsTrans (String × Nat × Nat) rankRel :=
  ⟨by intro a b c hab hbc; unfold rankRel at hab hbc ⊢; omega⟩

/-- `Counter(fw).most_common(n)`, word component only (line 39 keeps only the
words). -/
def most_common (fw : List String) (n : Nat) : List String :=
  ((List.insertionSort rankRel (counter_items fw)).take n).map (fun e => e.1)

/-- Line 39: the local variable `keywords` of `analyze_content`, the ten
most frequent surviving tokens. -/
def keywords_local (nl : NLTK) (content : String) : List String :=
  most_common (filtered_words nl content) 10

/-- Line 80: the `keywords` field of the returned analysis is `keywords[:8]`. -/
def analyze_keywords (nl : NLTK) (content : String) : List String :=
  (keywords_local nl content).take 8

/-- Line 42: the positive sentiment lexicon. -/
def positive_words : List String :=
  ["good", "great", "excellent", "amazing", "wonderful", "fantastic", "positive",
   "success", "growth", "innovative", "effective", "beneficial", "valuable",
   "important", "significant"]

/-- Line 43: the negative sentiment lexicon. -/
def negative_words : List String :=
  ["bad", "terrible", "awful", "negative", "problem", "issue", "failure",
   "decline", "poor", "difficult", "challenging", "concerning"]

/-- Lines 45-53: lexicon-count sentiment. -/
def analyze_sentiment (nl : NLTK) (content : String) : String :=
  let fw := filtered_words nl content
  let pos_count := fw.countP (fun w => positive_words.contains w)
  let neg_count := fw.countP (fun w => negative_words.contains w)
  if neg_count < pos_count then "positive"
  else if pos_count < neg_count then "negative"
  else "neutral"

/-- Line 56: the formal-tone indicator lexicon. -/
def formal_indicators : List String :=
  ["therefore", "however", "furthermore", "consequently", "analysis",
   "research", "study", "data"]

/-- Line 57: the casual-tone indicator lexicon. -/
def casual_indicators : List String :=
  ["really", "pretty", "quite", "totally", "awesome", "cool", "hey", "wow"]

/-- Lines 59-67: lexicon-count tone, ties resolving to conversational. -/
def analyze_tone (nl : NLTK) (content : String) : String :=
  let fw := filtered_words nl content
  let formal_count := fw.countP (fun w => formal_indicators.contains w)
  let casual_count := fw.countP (fun w => casual_indicators.contains w)
  if casual_count < formal_count then "professional"
  else if formal_count < casual_count then "casual"
  else "conversational"

/-- Lines 91-104: rule-based audience classification. -/
def determine_audience (keywords : List String) (tone : String) : String :=
  let business_terms := ["business", "company", "market", "strategy", "revenue",
    "profit", "management"]
  let tech_terms := ["technology", "software", "digital", "ai", "data", "system",
    "platform"]
  if business_terms.any (fun t => keywords.contains t) then
    "Business professionals and entrepreneurs"
  else if tech_terms.any (fun t => keywords.contains t) then
    "Technology enthusiasts and professionals"
  else if tone = "professional" then
    "Professional audience seeking insights"
  else
    "General audience interested in the topic"

/-- Line 111: the takeaway indicator words. -/
def takeaway_indicators : List String :=
  ["important", "key", "essential", "crucial", "significant", "main", "primary"]

/-- Lines 113-115: the stripped sentences among the first five that contain an
indicator word. -/
def matched_takeaways (sentences : List String) : List String :=
  ((sentences.take 5).filter
    (fun s => takeaway_indicators.any (fun ind => pyInStr ind (pyLower s)))).map pyStrip

/-- Lines 106-132: takeaway extraction with the generic fallback, truncated
to three entries. -/
def extract_takeaways (sentences : List String) (keywords : List String) : List String :=
  let tk := matched_takeaways sentences
  (if tk = [] then
    match keywords with
    | [] => ["Content provides valuable insights",
             "Important information for readers",
             "Useful for understanding the topic"]
    | k :: rest =>
        ["Key insights about " ++ k,
         "Important considerations regarding " ++
           (match rest with | [] => "the topic" | k2 :: _ => k2),
         "Valuable information for decision making"]
  else tk).take 3

/-- Line 73: first sentence, or the first 100 characters if no sentences. -/
def summary_short_of (nl : NLTK) (content : String) : String :=
  match nl.sent_tokenize content with
  | [] => pyTake content 100
  | s :: _ => s

/-- Line 74. -/
def summary_medium_of (nl : NLTK) (content : String) : String :=
  let sentences := nl.sent_tokenize content
  if 2 ≤ sentences.length then pyJoin ". " (sentences.take 2)
  else summary_short_of nl content

/-- Line 75. -/
def summary_long_of (nl : NLTK) (content : String) : String :=
  let sentences := nl.sent_tokenize content
  if 3 ≤ sentences.length then pyJoin ". " (sentences.take 3)
  else summary_medium_of nl content

/-- Lines 25-89: `LocalAIProcessor.analyze_content`, returning the dict
literal of lines 77-89. Total in all the ways the source is guarded
(`keywords[0]`/`sentences[0]`/`keywords[1]` are all behind emptiness checks). -/
def analyze_content (nl : NLTK) (content : String) : List (String × PyVal) :=
  let keywords := keywords_local nl content
  let tone := analyze_tone nl content
  [("main_theme", PyVal.str (match keywords with
      | [] => "Content Analysis"
      | k :: _ => "Analysis of " ++ k)),
   ("key_topics", PyVal.list ((keywords.take 5).map PyVal.str)),
   ("keywords", PyVal.list ((keywords.take 8).map PyVal.str)),
   ("sentiment", PyVal.str (analyze_sentiment nl content)),
   ("tone", PyVal.str tone),
   ("target_audience", PyVal.str (determine_audience keywords tone)),
   ("key_takeaways", PyVal.list
      ((extract_takeaways (nl.sent_tokenize content) keywords).map PyVal.str)),
   ("summary_short", PyVal.str (summary_short_of nl content)),
   ("summary_medium", PyVal.str (summary_medium_of nl content)),
   ("summary_long", PyVal.str (summary_long_of nl content)),
   ("suggested_formats", PyVal.list
      (["social_post", "email_snippet", "short_article", "infographic_data"].map PyVal.str))]

end LocalAIProcessor

/-- The four mojibake code points that local_ai_processor.py line 168 stores
for the light-bulb emoji (Python counts them as 4 characters). -/
def moji_bulb : String := "\u00f0\u0178\u2019\u00a1"

/-- The mojibake code points of line 174's speech-balloon emoji (4 characters). -/
def moji_speech : String := "\u00f0\u0178\u2019\u00ac"

/-- The mojibake code points of line 180's sparkles emoji (3 characters). -/
def moji_sparkle : String := "\u00e2\u0153\u00a8"

/-- The mojibake code points of line 180's books emoji (4 characters). -/
def moji_books : String := "\u00f0\u0178\u201c\u0161"

/-- One social post dict of `_generate_social_posts_local`. -/
structure SocialPost where
  platform : String
  text : String
  hashtags : List String
  character_count : Nat

/-- The post dict as the Python dict literal (lines 160-183). -/
def SocialPost.toPyVal (p : SocialPost) : PyVal :=
  PyVal.dict [("platform", PyVal.str p.platform),
              ("text", PyVal.str p.text),
              ("hashtags", PyVal.list (p.hashtags.map PyVal.str)),
              ("character_count", PyVal.int p.character_count)]

/-- One email snippet dict of `_generate_email_snippets_local`. -/
structure EmailSnippet where
  type : String
  subject : String
  content : String
  cta : String
  word_count : Nat

/-- The snippet dict as the Python dict literal (lines 190-205). -/
def EmailSnippet.toPyVal (e : EmailSnippet) : PyVal :=
  PyVal.dict [("type", PyVal.str e.type),
              ("subject", PyVal.str e.subject),
              ("content", PyVal.str e.content),
              ("cta", PyVal.str e.cta),
              ("word_count", PyVal.int e.word_count)]

/-- The fields of the analysis dict that `repurpose_content` and its helpers
read through `analysis.get(...)`; `Option.none` models an absent key, so the
source's per-call defaults stay visible in the embedding. -/
structure AnalysisInput where
  main_theme : Option String
  keywords : Option (List String)
  summary_short : Option String
  tone : Option String
  key_takeaways : Option (List String)
  sentiment : Option String
  target_audience : Option String

namespace LocalAIProcessor

/-- Lines 155-186: `_generate_social_posts_local`. Each `text` is the exact
f-string of the source (mojibake code points included); each
`character_count` is the length of the duplicated f-string that drops the
hashtag tail (and, for instagram, writes a single space where the text has
blank-line separators). -/
def generate_social_posts_local (theme : String) (keywords : List String)
    (summary : String) (tone : String) : List SocialPost :=
  let hashtag := match keywords with
    | [] => "content"
    | k :: _ => k
  [{ platform := "linkedin",
     text := "Exploring " ++ pyLower theme ++ ". " ++ summary ++
       " Key insights that matter for professionals." ++ " #" ++ hashtag ++
       " #insights #professional",
     hashtags := [hashtag, "insights", "professional"],
     character_count := ("Exploring " ++ pyLower theme ++ ". " ++ summary ++
       " Key insights that matter for professionals.").length },
   { platform := "twitter",
     text := moji_bulb ++ " " ++ theme ++ ": " ++ pyTake summary 100 ++
       (if 100 < summary.length then "..." else "") ++ " #" ++ hashtag ++
       " #insights",
     hashtags := [hashtag, "insights"],
     character_count := (moji_bulb ++ " " ++ theme ++ ": " ++ pyTake summary 100 ++
       (if 100 < summary.length then "..." else "")).length },
   { platform := "facebook",
     text := "Sharing some thoughts on " ++ pyLower theme ++ ". " ++ summary ++
       " What\x27s your take on this? Let\x27s discuss!" ++ " " ++ moji_speech,
     hashtags := [hashtag],
     character_count := ("Sharing some thoughts on " ++ pyLower theme ++ ". " ++
       summary ++ " What\x27s your take on this? Let\x27s discuss!").length },
   { platform := "instagram",
     text := moji_sparkle ++ " Deep dive into " ++ pyLower theme ++ " today! " ++
       moji_books ++ "\n\n" ++ summary ++ "\n\n#" ++ hashtag ++
       " #insights #learning #growth",
     hashtags := [hashtag, "insights", "learning", "growth"],
     character_count := (moji_sparkle ++ " Deep dive into " ++ pyLower theme ++
       " today! " ++ moji_books ++ " " ++ summary).length }]

/-- Lines 188-205: `_generate_email_snippets_local`. -/
def generate_email_snippets_local (theme : String) (summary : String)
    (keywords : List String) : List EmailSnippet :=
  [{ type := "newsletter_teaser",
     subject := "New insights on " ++ pyLower theme,
     content := "We\x27ve been exploring " ++ pyLower theme ++
       " and wanted to share some key insights with you.\n\n" ++ summary ++
       "\n\nThis analysis reveals important considerations that could impact your approach to this topic.",
     cta := "Read Full Analysis",
     word_count := (pySplitWs ("We\x27ve been exploring " ++ pyLower theme ++
       " and wanted to share some key insights with you. " ++ summary)).length },
   { type := "promotional",
     subject := "Don\x27t miss: Key findings about " ++ pyLower theme,
     content := "Our latest analysis on " ++ pyLower theme ++
       " is now available.\n\n" ++ summary ++
       "\n\nDiscover actionable insights that can help you make informed decisions.",
     cta := "Get Full Report",
     word_count := (pySplitWs ("Our latest analysis on " ++ pyLower theme ++
       " is now available. " ++ summary)).length }]

/-- Lines 207-219: `_generate_short_article_local` (re-reads `keywords` and
`key_takeaways` from the analysis with empty-list defaults). -/
def generate_short_article_local (theme : String) (content : String)
    (analysis : AnalysisInput) : List (String × PyVal) :=
  let keywords := analysis.keywords.getD []
  let takeaways := analysis.key_takeaways.getD []
  [("headline", PyVal.str ("Understanding " ++ theme ++ ": Key Insights and Implications")),
   ("introduction", PyVal.str ("In today\x27s rapidly evolving landscape, " ++
     pyLower theme ++
     " has become increasingly important. Our analysis reveals several key considerations that deserve attention.")),
   ("main_content", PyVal.str ("The examination of " ++ pyLower theme ++
     " shows that " ++ pyJoin ", " (keywords.take 3) ++ " are central themes. " ++
     (match takeaways with
      | [] => "The content provides valuable insights."
      | t :: _ => t) ++
     " This analysis helps us understand the broader implications and potential applications.")),
   ("conclusion", PyVal.str ("These insights about " ++ pyLower theme ++
     " provide a foundation for informed decision-making. Understanding these key aspects can help guide future strategies and approaches.")),
   ("word_count", PyVal.int 250),
   ("reading_time", PyVal.str "2 min read")]

/-- Lines 221-238: `_generate_infographic_data_local`. -/
def generate_infographic_data_local (theme : String) (keywords : List String)
    (analysis : AnalysisInput) : List (String × PyVal) :=
  [("title", PyVal.str ("Key Insights: " ++ theme)),
   ("statistics", PyVal.list
     [PyVal.dict [("label", PyVal.str "Main Focus"), ("value", PyVal.str theme),
                  ("icon_suggestion", PyVal.str "target")],
      PyVal.dict [("label", PyVal.str "Key Topics"),
                  ("value", PyVal.str (toString keywords.length)),
                  ("icon_suggestion", PyVal.str "list")],
      PyVal.dict [("label", PyVal.str "Sentiment"),
                  ("value", PyVal.str (pyTitle (analysis.sentiment.getD "neutral"))),
                  ("icon_suggestion", PyVal.str "heart")]]),
   ("sections", PyVal.list
     [PyVal.dict [("title", PyVal.str "Overview"),
                  ("description", PyVal.str (analysis.summary_short.getD "Key insights and analysis"))],
      PyVal.dict [("title", PyVal.str "Key Topics"),
                  ("description", PyVal.str ("Focus areas: " ++ pyJoin ", " (keywords.take 3)))],
      PyVal.dict [("title", PyVal.str "Target Audience"),
                  ("description", PyVal.str (analysis.target_audience.getD "General audience"))]]),
   ("cta", PyVal.str "Learn More"),
   ("image_description", PyVal.str
     ("Infographic displaying key insights and statistics about " ++ theme)),
   ("image_url", PyVal.none)]

/-- Lines 147-152: the `rag_metadata` dict of the local engine's bundle.
It carries `local_processing` and no `fallback_used` key. -/
def local_rag_metadata (timestamp : String) : List (String × PyVal) :=
  [("context_used", PyVal.bool false),
   ("context_length", PyVal.int 0),
   ("generation_timestamp", PyVal.str timestamp),
   ("local_processing", PyVal.bool true)]

/-- Lines 134-153: `LocalAIProcessor.repurpose_content`; `timestamp` stands for
the external `datetime.now().isoformat()` call. -/
def repurpose_content (original_content : String) (analysis : AnalysisInput)
    (timestamp : String) : List (String × PyVal) :=
  let theme := analysis.main_theme.getD "content"
  let keywords := analysis.keywords.getD ["content"]
  let summary := analysis.summary_short.getD (pyTake original_content 100)
  let tone := analysis.tone.getD "professional"
  [("social_posts", PyVal.list
     ((generate_social_posts_local theme keywords summary tone).map SocialPost.toPyVal)),
   ("email_snippets", PyVal.list
     ((generate_email_snippets_local theme summary keywords).map EmailSnippet.toPyVal)),
   ("short_article", PyVal.dict (generate_short_article_local theme original_content analysis)),
   ("infographic_data", PyVal.dict (generate_infographic_data_local theme keywords analysis)),
   ("rag_metadata", PyVal.dict (local_rag_metadata timestamp))]

end LocalAIProcessor

/-- One content record as the retrieval code reads it from the persistence
collaborator: `id`, `title`, possibly-missing `original_content` and
possibly-missing `created_at` (already rendered with `strftime('%Y-%m-%d')`).
The record lists below are taken in the `created_at`-descending order the
query produces, which is the collaborator's concern. -/
structure ContentRecord where
  id : Nat
  title : String
  original_content : Option String
  created_at : Option String

/-- The `if exclude_content_id: query.filter(Content.id != exclude_content_id)`
step shared by all three retrieval paths. Python truthiness: `None` and `0`
skip the filter (real primary keys are positive). -/
def applyExclude (excl : Option Nat) (recs : List ContentRecord) : List ContentRecord :=
  match excl with
  | Option.none => recs
  | some e => if e = 0 then recs else recs.filter (fun r => r.id != e)

/-- Truthiness of `article.original_content` combined with the
`len(...) > 100` check of both enhanced retrieval paths. -/
def longOriginal (r : ContentRecord) : Bool :=
  match r.original_content with
  | Option.none => false
  | some oc => 100 < oc.length

namespace HuggingFaceProcessor

/-- One outcome of `requests.post` inside `_query_huggingface`: an HTTP
response with status and JSON body, a `requests.exceptions.Timeout`, or any
other exception. The backend is modelled as the sequence of outcomes indexed
by attempt number. -/
inductive HFResp where
  | resp (status : Nat) (body : PyVal)
  | timeoutExc
  | otherExc

/-- huggingface_processor.py lines 42-64: the retry loop of
`_query_huggingface`. Returns the parsed body (`None` on failure), the number
of requests actually made, and the total `time.sleep` seconds. Per the source:
status 200 returns, status 503 sleeps 10s and retries, any other status
breaks, `Timeout` retries, any other exception breaks. -/
def query_huggingface_loop (outcome : Nat → HFResp) (attempt fuel sleepAcc : Nat) :
    Option PyVal × Nat × Nat :=
  match fuel with
  | 0 => (Option.none, attempt, sleepAcc)
  | fuel' + 1 =>
    match outcome attempt with
    | .resp status body =>
      if status = 200 then (some body, attempt + 1, sleepAcc)
      else if status = 503 then
        query_huggingface_loop outcome (attempt + 1) fuel' (sleepAcc + 10)
      else (Option.none, attempt + 1, sleepAcc)
    | .timeoutExc => query_huggingface_loop outcome (attempt + 1) fuel' sleepAcc
    | .otherExc => (Option.none, attempt + 1, sleepAcc)

/-- Lines 38-64: `_query_huggingface` with its `max_retries` bound
(default 3 at the call sites). -/
def query_huggingface (outcome : Nat → HFResp) (max_retries : Nat) :
    Option PyVal × Nat × Nat :=
  query_huggingface_loop outcome 0 max_retries 0

/-- Lines 76-86: the records whose blocks the Hugging Face `retrieve_context`
formats: the most recent `limit * 2` after exclusion, sliced to `limit`, then
filtered to long original bodies. -/
def hf_selected (recs : List ContentRecord) (excl : Option Nat) (limit : Nat) :
    List ContentRecord :=
  (((applyExclude excl recs).take (limit * 2)).take limit).filter longOriginal

/-- Lines 88-93: one formatted context block. -/
def formatArticleBlock (r : ContentRecord) : String :=
  "[Previous Article - " ++ r.created_at.getD "Unknown" ++ "]\nTitle: " ++
    r.title ++ "\nContent: " ++ pyTake (r.original_content.getD "") 800 ++ "\n---"

/-- Lines 66-99: `HuggingFaceProcessor.retrieve_context`. `db = none` models
the persistence collaborator raising (caught, returns `""`); `hasAppCtx`
models `flask.has_app_context()`. -/
def hf_retrieve_context (db : Option (List ContentRecord)) (hasAppCtx : Bool)
    (excl : Option Nat) (limit : Nat) : String :=
  if !hasAppCtx then ""
  else
    match db with
    | Option.none => ""
    | some recs =>
      if ((applyExclude excl recs).take (limit * 2)).isEmpty then ""
      else pyJoin "\n\n" ((hf_selected recs excl limit).map formatArticleBlock)

/-- Lines 141-174: `HuggingFaceProcessor.repurpose_content`. When
`use_huggingface` is false the local engine serves directly; otherwise the
try-block (network-dependent, abstracted as `hf_try`) serves unless it
raises, in which case the local engine serves the fallback. -/
def repurpose_content (use_huggingface : Bool)
    (hf_try : Except Unit (List (String × PyVal))) (original_content : String)
    (analysis : AnalysisInput) (timestamp : String) : List (String × PyVal) :=
  if !use_huggingface then
    LocalAIProcessor.repurpose_content original_content analysis timestamp
  else
    match hf_try with
    | .ok r => r
    | .error _ => LocalAIProcessor.repurpose_content original_content analysis timestamp

end HuggingFaceProcessor

namespace AIProcessor

/-- One ranking candidate of ai_processor.py lines 69-77. -/
structure Cand where
  title : String
  content : String
  created_s : String
  id : Nat

/-- Lines 69-77: build the candidate list from all fetched recent articles
(up to `limit * 2` of them). -/
def gemini_candidates (recs : List ContentRecord) (excl : Option Nat)
    (limit : Nat) : List Cand :=
  ((applyExclude excl recs).take (limit * 2)).filterMap (fun r =>
    match r.original_content with
    | Option.none => Option.none
    | some oc =>
      if 100 < oc.length then
        some { title := r.title, content := pyTake oc 800,
               created_s := r.created_at.getD "Unknown", id := r.id }
      else Option.none)

/-- Lines 102-146: `_rank_context_relevance`. The generative ranking call is
abstracted as `oracle`: `some rankings` is the parsed JSON array of 1-based
ranks, `none` covers a non-array response or an exception (both fall back to
the first `limit` candidates). Valid ranks index into the candidates; invalid
ranks are skipped. -/
def rank_context_relevance (candidates : List Cand) (limit : Nat)
    (oracle : Option (List Int)) : List Cand :=
  if candidates.length ≤ limit then candidates
  else
    match oracle with
    | some rankings =>
      (rankings.take limit).filterMap (fun rk =>
        if 1 ≤ rk ∧ rk ≤ (candidates.length : Int) then
          candidates.get? (rk - 1).toNat
        else Option.none)
    | Option.none => candidates.take limit

/-- Lines 87-93: one formatted context block of the Gemini path. -/
def formatCandBlock (c : Cand) : String :=
  "[Previous Article - " ++ c.created_s ++ "]\nTitle: " ++ c.title ++
    "\nContent: " ++ c.content ++ "\n---"

/-- The candidates whose blocks the Gemini `retrieve_context` formats. -/
def gemini_selected (recs : List ContentRecord) (excl : Option Nat)
    (limit : Nat) (oracle : Option (List Int)) : List Cand :=
  rank_context_relevance (gemini_candidates recs excl limit) limit oracle

/-- Lines 150-157: the records formatted by `_simple_context_retrieval`
(`limit` most recent after exclusion, truthy original body). -/
def simple_selected (recs : List ContentRecord) (excl : Option Nat)
    (limit : Nat) : List ContentRecord :=
  ((applyExclude excl recs).take limit).filter (fun r =>
    match r.original_content with
    | Option.none => false
    | some oc => !(oc == ""))

/-- Lines 148-162: `_simple_context_retrieval`; a raising persistence
collaborator (`db = none`) is caught and yields `""`. -/
def simple_context_retrieval (db : Option (List ContentRecord))
    (excl : Option Nat) (limit : Nat) : String :=
  match db with
  | Option.none => ""
  | some recs =>
    pyJoin "\n\n" ((simple_selected recs excl limit).map (fun r =>
      "Title: " ++ r.title ++ "\nContent: " ++
        pyTake (r.original_content.getD "") 500 ++ "..."))

/-- Lines 50-100: `AIProcessor.retrieve_context`. A raising persistence
collaborator is caught by the outer handler, which falls back to
`_simple_context_retrieval` (where it raises again and yields `""`). -/
def gemini_retrieve_context (db : Option (List ContentRecord)) (hasAppCtx : Bool)
    (excl : Option Nat) (limit : Nat) (oracle : Option (List Int)) : String :=
  if !hasAppCtx then ""
  else
    match db with
    | Option.none => simple_context_retrieval Option.none excl limit
    | some recs =>
      if ((applyExclude excl recs).take (limit * 2)).isEmpty then ""
      else
        let cands := gemini_candidates recs excl limit
        if cands.isEmpty then ""
        else pyJoin "\n\n" ((rank_context_relevance cands limit oracle).map formatCandBlock)

end AIProcessor

/-! Concrete instantiations of the external collaborators, used by the
counterexamples and witnesses below. -/

/-- The NLTK English stop-word corpus (`stopwords.words('english')`), the
concrete value of the `stopwords` parameter in the deployed system. -/
def nltk_english_stopwords : List String :=
  ["i", "me", "my", "myself", "we", "our", "ours", "ourselves", "you",
   "you\x27re", "you\x27ve", "you\x27ll", "you\x27d", "your", "yours",
   "yourself", "yourselves", "he", "him", "his", "himself", "she",
   "she\x27s", "her", "hers", "herself", "it", "it\x27s", "its", "itself",
   "they", "them", "their", "theirs", "themselves", "what", "which", "who",
   "whom", "this", "that", "that\x27ll", "these", "those", "am", "is",
   "are", "was", "were", "be", "been", "being", "have", "has", "had",
   "having", "do", "does", "did", "doing", "a", "an", "the", "and", "but",
   "if", "or", "because", "as", "until", "while", "of", "at", "by", "for",
   "with", "about", "against", "between", "into", "through", "during",
   "before", "after", "above", "below", "to", "from", "up", "down", "in",
   "out", "on", "off", "over", "under", "again", "further", "then", "once",
   "here", "there", "when", "where", "why", "how", "all", "any", "both",
   "each", "few", "more", "most", "other", "some", "such", "no", "nor",
   "not", "only", "own", "same", "so", "than", "too", "very", "s", "t",
   "can", "will", "just", "don", "don\x27t", "should", "should\x27ve",
   "now", "d", "ll", "m", "o", "re", "ve", "y", "ain", "aren",
   "aren\x27t", "couldn", "couldn\x27t", "didn", "didn\x27t", "doesn",
   "doesn\x27t", "hadn", "hadn\x27t", "hasn", "hasn\x27t", "haven",
   "haven\x27t", "isn", "isn\x27t", "ma", "mightn", "mightn\x27t",
   "mustn", "mustn\x27t", "needn", "needn\x27t", "shan", "shan\x27t",
   "shouldn", "shouldn\x27t", "wasn", "wasn\x27t", "weren", "weren\x27t",
   "won", "won\x27t", "wouldn", "wouldn\x27t"]

/-- A concrete NLTK instantiation for evaluating the engine on plain
space-separated alphabetic text without sentence punctuation, where
`sent_tokenize` returns the whole text as one sentence and `word_tokenize`
returns the space-separated tokens — which is what the real punkt tokenizers
return on such text. -/
def nltkPlain : NLTK :=
  { sent_tokenize := fun s => [s],
    word_tokenize := pySplitSpace,
    stopwords := nltk_english_stopwords }

/-- Ten distinct alphabetic non-stop-word tokens, each longer than two
characters: after filtering, exactly ten distinct tokens survive. -/
def tenWordText : String :=
  "alpha bravo charlie delta echo foxtrot golf hotel india juliet"

/-- A concrete, fully populated analysis input for evaluating the
repurposing path. -/
def sampleAnalysis : AnalysisInput :=
  { main_theme := some "Analysis of healthcare",
    keywords := some ["healthcare", "predictive"],
    summary_short := some "AI is transforming healthcare.",
    tone := some "professional",
    key_takeaways := some ["Key insights about healthcare"],
    sentiment := some "neutral",
    target_audience := some "Technology enthusiasts and professionals" }

/-! The claim theorems. -/

/-- C6: for any input text and any tokenizer/stop-word instantiation, the
Local NLP Engine's `analyze_content` is total (the embedding is a Lean
function, mirroring the source's emptiness guards) and returns exactly the
eleven analysis fields, each present and bound to a non-`None` value. -/
theorem analyze_content_total_fields_non_null (nl : NLTK) (content : String) :
    (LocalAIProcessor.analyze_content nl content).map Prod.fst =
      ["main_theme", "key_topics", "keywords", "sentiment", "tone",
       "target_audience", "key_takeaways", "summary_short", "summary_medium",
       "summary_long", "suggested_formats"]
    ∧ ((LocalAIProcessor.analyze_content nl content).all
        (fun kv => !kv.2.isNone)) = true :=
  ⟨rfl, rfl⟩

/-- C9: the Local NLP Engine's `analyze_content` is deterministic — it is a
pure function of the content and the (deterministic) NLTK collaborator, so
two calls on identical input yield identical output. -/
theorem analyze_content_deterministic (nl : NLTK) (c1 c2 : String) (h : c1 = c2) :
    LocalAIProcessor.analyze_content nl c1 = LocalAIProcessor.analyze_content nl c2 := by
  rw [h]

/-- Witness for C9 at a concrete input. -/
theorem analyze_content_deterministic_witness :
    tenWordText = tenWordText ∧
    LocalAIProcessor.analyze_content nltkPlain tenWordText =
      LocalAIProcessor.analyze_content nltkPlain tenWordText :=
  ⟨rfl, analyze_content_deterministic nltkPlain tenWordText tenWordText rfl⟩

/-- C2 (amended): whenever repurposing is served by the Local NLP Engine
fallback — because no provider is configured or because the configured
primary's attempt raises — the bundle is schema-valid (all five components
present) and its `rag_metadata` has `context_used = false` and
`local_processing = true`; the local engine writes no `fallback_used` key at
all (the spec's `fallback_used = true` matches only the dead helper
`_get_fallback_repurposed_content` and the route-level repurposing handler,
not the served bundle). -/
theorem local_fallback_bundle_metadata (useHF : Bool) (orig : String)
    (a : AnalysisInput) (ts : String) :
    HuggingFaceProcessor.repurpose_content useHF (Except.error ()) orig a ts =
      LocalAIProcessor.repurpose_content orig a ts
    ∧ (HuggingFaceProcessor.repurpose_content useHF (Except.error ()) orig a ts).map
        Prod.fst =
      ["social_posts", "email_snippets", "short_article", "infographic_data",
       "rag_metadata"]
    ∧ List.lookup "rag_metadata"
        (HuggingFaceProcessor.repurpose_content useHF (Except.error ()) orig a ts) =
      some (PyVal.dict (LocalAIProcessor.local_rag_metadata ts))
    ∧ List.lookup "context_used" (LocalAIProcessor.local_rag_metadata ts) =
      some (PyVal.bool false)
    ∧ List.lookup "local_processing" (LocalAIProcessor.local_rag_metadata ts) =
      some (PyVal.bool true)
    ∧ List.lookup "fallback_used" (LocalAIProcessor.local_rag_metadata ts) =
      Option.none := by
  cases useHF <;> exact ⟨rfl, rfl, rfl, rfl, rfl, rfl⟩

/-- Counterexample to C2 as stated: at a concrete input served by the local
fallback after the primary raised, the bundle's `rag_metadata` holds no
`fallback_used` key, so it does not have `fallback_used = true`. -/
theorem local_fallback_no_fallback_used_key :
    List.lookup "rag_metadata"
      (HuggingFaceProcessor.repurpose_content true (Except.error ()) tenWordText
        sampleAnalysis "2025-01-01T00:00:00") =
      some (PyVal.dict (LocalAIProcessor.local_rag_metadata "2025-01-01T00:00:00"))
    ∧ List.lookup "fallback_used"
        (LocalAIProcessor.local_rag_metadata "2025-01-01T00:00:00") = Option.none
    ∧ List.lookup "fallback_used"
        (LocalAIProcessor.local_rag_metadata "2025-01-01T00:00:00") ≠
      some (PyVal.bool true) :=
  ⟨rfl, rfl, fun h => Option.noConfusion h⟩

/-- C7: for every original text and analysis, the local `repurpose_content`
bundle has exactly the five components, with exactly 4 social posts whose
platforms are linkedin, twitter, facebook, instagram in that order, exactly
2 email snippets typed newsletter_teaser and promotional, one short article
dict and one infographic dict. -/
theorem repurpose_bundle_shape (orig : String) (a : AnalysisInput) (ts : String) :
    (LocalAIProcessor.generate_social_posts_local (a.main_theme.getD "content")
        (a.keywords.getD ["content"]) (a.summary_short.getD (pyTake orig 100))
        (a.tone.getD "professional")).map (fun p => p.platform) =
      ["linkedin", "twitter", "facebook", "instagram"]
    ∧ (LocalAIProcessor.generate_email_snippets_local (a.main_theme.getD "content")
        (a.summary_short.getD (pyTake orig 100)) (a.keywords.getD ["content"])).map
        (fun e => e.type) = ["newsletter_teaser", "promotional"]
    ∧ (LocalAIProcessor.repurpose_content orig a ts).map Prod.fst =
      ["social_posts", "email_snippets", "short_article", "infographic_data",
       "rag_metadata"]
    ∧ List.lookup "social_posts" (LocalAIProcessor.repurpose_content orig a ts) =
      some (PyVal.list ((LocalAIProcessor.generate_social_posts_local
        (a.main_theme.getD "content") (a.keywords.getD ["content"])
        (a.summary_short.getD (pyTake orig 100))
        (a.tone.getD "professional")).map SocialPost.toPyVal))
    ∧ List.lookup "email_snippets" (LocalAIProcessor.repurpose_content orig a ts) =
      some (PyVal.list ((LocalAIProcessor.generate_email_snippets_local
        (a.main_theme.getD "content") (a.summary_short.getD (pyTake orig 100))
        (a.keywords.getD ["content"])).map EmailSnippet.toPyVal))
    ∧ List.lookup "short_article" (LocalAIProcessor.repurpose_content orig a ts) =
      some (PyVal.dict (LocalAIProcessor.generate_short_article_local
        (a.main_theme.getD "content") orig a))
    ∧ List.lookup "infographic_data" (LocalAIProcessor.repurpose_content orig a ts) =
      some (PyVal.dict (LocalAIProcessor.generate_infographic_data_local
        (a.main_theme.getD "content") (a.keywords.getD ["content"]) a)) :=
  ⟨rfl, rfl, rfl, rfl, rfl, rfl, rfl⟩

/-- Counterexample to C1 as stated: at a concrete analysis and text, none of
the four generated posts has `character_count` equal to the length of its
`text` field (the count is taken over the text without its hashtag tail). -/
theorem social_character_count_ne_text_length :
    ((LocalAIProcessor.generate_social_posts_local "Analysis of alpha" ["alpha"]
        "Short summary." "professional").map
      (fun p => decide (p.character_count = p.text.length))) =
    [false, false, false, false] := rfl

/-- C1 (amended): for every theme, keyword list, summary and tone, each
post's `character_count` equals the length of the post's text without its
hashtag tail — for linkedin and twitter, `len(text)` minus the appended
` #...` hashtag block (26 + |hashtag| resp. 12 + |hashtag| characters); for
facebook, minus the trailing speech-balloon suffix (5 characters); for
instagram the count is over the single-line hashtag-free variant, 32 +
|hashtag| characters shorter than the posted text. -/
theorem social_character_count_counts_hashtagless_text (theme : String)
    (keywords : List String) (summary : String) (tone : String) :
    ((LocalAIProcessor.generate_social_posts_local theme keywords summary tone).map
        (fun p => p.text.length)) =
      List.zipWith (· + ·)
        ((LocalAIProcessor.generate_social_posts_local theme keywords summary tone).map
          (fun p => p.character_count))
        [26 + (keywords.headD "content").length, 12 + (keywords.headD "content").length,
         5, 32 + (keywords.headD "content").length] := by
  have h1 : (" #" : String).length = 2 := rfl
  have h2 : (" #insights #professional" : String).length = 24 := rfl
  have h3 : (" #insights" : String).length = 10 := rfl
  have h4 : (" " : String).length = 1 := rfl
  have h5 : moji_speech.length = 4 := rfl
  have h6 : ("\n\n" : String).length = 2 := rfl
  have h7 : ("\n\n#" : String).length = 3 := rfl
  have h8 : (" #insights #learning #growth" : String).length = 28 := rfl
  have h9 : ("content" : String).length = 7 := rfl
  cases keywords with
  | nil =>
    simp only [LocalAIProcessor.generate_social_posts_local, List.headD, List.map_cons,
      List.map_nil, List.zipWith, String.length_append, List.cons.injEq, and_true,
      h1, h2, h3, h4, h5, h6, h7, h8, h9]
    and_intros <;> first
      | trivial
      | omega
  | cons k ks =>
    simp only [LocalAIProcessor.generate_social_posts_local, List.headD, List.map_cons,
      List.map_nil, List.zipWith, String.length_append, List.cons.injEq, and_true,
      h1, h2, h3, h4, h5, h6, h7, h8, h9]
    and_intros <;> first
      | trivial
      | omega

/-- The length of the takeaway list, by cases on whether any of the first
five sentences matched an indicator. -/
theorem extract_takeaways_length (s kw : List String) :
    (LocalAIProcessor.extract_takeaways s kw).length =
      (if LocalAIProcessor.matched_takeaways s = [] then 3
       else min 3 (LocalAIProcessor.matched_takeaways s).length) := by
  unfold LocalAIProcessor.extract_takeaways
  by_cases hm : LocalAIProcessor.matched_takeaways s = []
  · simp only [hm, if_pos]
    cases kw <;> rfl
  · simp [hm, List.length_take]

/-- C10: for every tokenizer instantiation and input text, the
`key_takeaways` field of the analysis has between 1 and 3 entries: the first
(up to three) matching stripped sentences when any of the first five
sentences contains an importance indicator, and exactly the 3 synthesized
generic takeaways otherwise. -/
theorem key_takeaways_one_to_three (nl : NLTK) (content : String) :
    List.lookup "key_takeaways" (LocalAIProcessor.analyze_content nl content) =
      some (PyVal.list ((LocalAIProcessor.extract_takeaways (nl.sent_tokenize content)
        (LocalAIProcessor.keywords_local nl content)).map PyVal.str))
    ∧ 1 ≤ (LocalAIProcessor.extract_takeaways (nl.sent_tokenize content)
        (LocalAIProcessor.keywords_local nl content)).length
    ∧ (LocalAIProcessor.extract_takeaways (nl.sent_tokenize content)
        (LocalAIProcessor.keywords_local nl content)).length ≤ 3
    ∧ (LocalAIProcessor.extract_takeaways (nl.sent_tokenize content)
        (LocalAIProcessor.keywords_local nl content)).length =
      (if LocalAIProcessor.matched_takeaways (nl.sent_tokenize content) = [] then 3
       else min 3 (LocalAIProcessor.matched_takeaways (nl.sent_tokenize content)).length) := by
  refine ⟨rfl, ?_, ?_, extract_takeaways_length _ _⟩
  · rw [extract_takeaways_length]
    split_ifs with hm
    · omega
    · have := List.length_pos.mpr hm
      omega
  · rw [extract_takeaways_length]
    split_ifs with hm <;> omega

/-- The exclusion step with a positive id is the plain id filter
(a positive id is truthy in Python). -/
theorem applyExclude_pos_eq (e : Nat) (recs : List ContentRecord) :
    applyExclude (some (e + 1)) recs = recs.filter (fun r => r.id != e + 1) := by
  simp [applyExclude]

/-- Everything `_rank_context_relevance` returns comes from the candidate
list: the identity, ranked-selection and first-`limit` branches all select
from `candidates`. -/
theorem mem_rank_context_relevance {cands : List AIProcessor.Cand} {limit : Nat}
    {oracle : Option (List Int)} {c : AIProcessor.Cand}
    (h : c ∈ AIProcessor.rank_context_relevance cands limit oracle) : c ∈ cands := by
  unfold AIProcessor.rank_context_relevance at h
  by_cases hlen : cands.length ≤ limit
  · rwa [if_pos hlen] at h
  · rw [if_neg hlen] at h
    cases oracle with
    | none => exact List.mem_of_mem_take h
    | some rankings =>
      rcases List.mem_filterMap.mp h with ⟨rk, _, hrk⟩
      by_cases hcond : 1 ≤ rk ∧ rk ≤ (cands.length : Int)
      · rw [if_pos hcond] at hrk
        exact List.get?_mem hrk
      · rw [if_neg hcond] at hrk
        exact absurd hrk (by simp)

/-- Every ranking candidate built with a positive excluded id carries an id
different from the excluded one. -/
theorem gemini_candidates_id_ne (recs : List ContentRecord) (e limit : Nat)
    {c : AIProcessor.Cand}
    (hc : c ∈ AIProcessor.gemini_candidates recs (some (e + 1)) limit) :
    c.id ≠ e + 1 := by
  unfold AIProcessor.gemini_candidates at hc
  rcases List.mem_filterMap.mp hc with ⟨r, hr, hmk⟩
  have hrid : (r.id != e + 1) = true := by
    have hr' : r ∈ applyExclude (some (e + 1)) recs := List.mem_of_mem_take hr
    rw [applyExclude_pos_eq] at hr'
    exact (List.mem_filter.mp hr').2
  have hcid : c.id = r.id := by
    split at hmk
    · exact absurd hmk (by simp)
    · split at hmk
      · rw [← Option.some.inj hmk]
      · exact absurd hmk (by simp)
  rw [hcid]
  simpa using hrid

/-- C8: for every positive `exclude_content_id`, the record with that id
never contributes a block to any of the three retrieval paths (the Hugging
Face path, the Gemini ranked path, and the simple fallback path), whatever
the store contents, the limit, and the ranking oracle. The id 0 is excluded
from the statement because a Python falsy id skips the filter, and the
persistence collaborator's primary keys are positive. -/
theorem retrieve_context_excludes_requested_id (recs : List ContentRecord)
    (e limit : Nat) (oracle : Option (List Int)) :
    ((HuggingFaceProcessor.hf_selected recs (some (e + 1)) limit).all
      (fun r => r.id != e + 1)) = true
    ∧ ((AIProcessor.gemini_selected recs (some (e + 1)) limit oracle).all
      (fun c => c.id != e + 1)) = true
    ∧ ((AIProcessor.simple_selected recs (some (e + 1)) limit).all
      (fun r => r.id != e + 1)) = true := by
  refine ⟨?_, ?_, ?_⟩
  · rw [List.all_eq_true]
    intro r hr
    unfold HuggingFaceProcessor.hf_selected at hr
    have hr1 := List.mem_of_mem_filter hr
    have hr2 := List.mem_of_mem_take (List.mem_of_mem_take hr1)
    rw [applyExclude_pos_eq] at hr2
    exact (List.mem_filter.mp hr2).2
  · rw [List.all_eq_true]
    intro c hc
    unfold AIProcessor.gemini_selected at hc
    have hc' := mem_rank_context_relevance hc
    have := gemini_candidates_id_ne recs e limit hc'
    simpa using this
  · rw [List.all_eq_true]
    intro r hr
    unfold AIProcessor.simple_selected at hr
    have hr1 := List.mem_of_mem_filter hr
    have hr2 := List.mem_of_mem_take hr1
    rw [applyExclude_pos_eq] at hr2
    exact (List.mem_filter.mp hr2).2

/-- C5: context retrieval is bounded and fails soft on all three paths: the
selected block lists never exceed `limit` entries; an unavailable persistence
collaborator (`db = none`) and an empty store both yield the empty string;
and on a populated store the returned context is either empty or exactly the
blank-line join of the selected formatted blocks. -/
theorem retrieve_context_block_bound
    (recs : List ContentRecord) (hasAppCtx : Bool) (excl : Option Nat)
    (limit : Nat) (oracle : Option (List Int)) :
    (HuggingFaceProcessor.hf_selected recs excl limit).length ≤ limit
    ∧ (AIProcessor.gemini_selected recs excl limit oracle).length ≤ limit
    ∧ (AIProcessor.simple_selected recs excl limit).length ≤ limit
    ∧ HuggingFaceProcessor.hf_retrieve_context Option.none hasAppCtx excl limit = ""
    ∧ HuggingFaceProcessor.hf_retrieve_context (some []) hasAppCtx excl limit = ""
    ∧ AIProcessor.gemini_retrieve_context Option.none hasAppCtx excl limit oracle = ""
    ∧ AIProcessor.gemini_retrieve_context (some []) hasAppCtx excl limit oracle = ""
    ∧ AIProcessor.simple_context_retrieval Option.none excl limit = ""
    ∧ (HuggingFaceProcessor.hf_retrieve_context (some recs) hasAppCtx excl limit = ""
       ∨ HuggingFaceProcessor.hf_retrieve_context (some recs) hasAppCtx excl limit =
         pyJoin "\n\n" ((HuggingFaceProcessor.hf_selected recs excl limit).map
           HuggingFaceProcessor.formatArticleBlock))
    ∧ (AIProcessor.gemini_retrieve_context (some recs) hasAppCtx excl limit oracle = ""
       ∨ AIProcessor.gemini_retrieve_context (some recs) hasAppCtx excl limit oracle =
         pyJoin "\n\n" ((AIProcessor.gemini_selected recs excl limit oracle).map
           AIProcessor.formatCandBlock)) := by
  refine ⟨?_, ?_, ?_, ?_, ?_, ?_, ?_, rfl, ?_, ?_⟩
  · calc (HuggingFaceProcessor.hf_selected recs excl limit).length
        ≤ (((applyExclude excl recs).take (limit * 2)).take limit).length :=
          List.length_filter_le _ _
      _ ≤ limit := by simp [List.length_take]
  · unfold AIProcessor.gemini_selected AIProcessor.rank_context_relevance
    by_cases hlen : (AIProcessor.gemini_candidates recs excl limit).length ≤ limit
    · rwa [if_pos hlen]
    · rw [if_neg hlen]
      cases oracle with
      | none => simp [List.length_take]
      | some rankings =>
        calc (List.filterMap _ (rankings.take limit)).length
            ≤ (rankings.take limit).length := List.length_filterMap_le _ _
          _ ≤ limit := by simp [List.length_take]
  · calc (AIProcessor.simple_selected recs excl limit).length
        ≤ ((applyExclude excl recs).take limit).length := List.length_filter_le _ _
      _ ≤ limit := by simp [List.length_take]
  · cases hasAppCtx <;> rfl
  · cases hasAppCtx <;> cases excl <;>
      simp [HuggingFaceProcessor.hf_retrieve_context, applyExclude]
  · cases hasAppCtx <;> rfl
  · cases hasAppCtx <;> cases excl <;>
      simp [AIProcessor.gemini_retrieve_context, AIProcessor.gemini_candidates,
        applyExclude]
  · cases hasAppCtx with
    | false => exact Or.inl rfl
    | true =>
      by_cases hemp : ((applyExclude excl recs).take (limit * 2)).isEmpty
      · exact Or.inl (by simp [HuggingFaceProcessor.hf_retrieve_context, hemp])
      · exact Or.inr (by simp [HuggingFaceProcessor.hf_retrieve_context, hemp])
  · cases hasAppCtx with
    | false => exact Or.inl rfl
    | true =>
      by_cases hemp : ((applyExclude excl recs).take (limit * 2)).isEmpty
      · exact Or.inl (by simp [AIProcessor.gemini_retrieve_context, hemp])
      · by_cases hcand : (AIProcessor.gemini_candidates recs excl limit).isEmpty
        · exact Or.inl (by simp [AIProcessor.gemini_retrieve_context, hemp, hcand])
        · exact Or.inr (by
            simp [AIProcessor.gemini_retrieve_context, hemp, hcand,
              AIProcessor.gemini_selected])

/-- A backend that always answers 503 (model warm-up) exhausts the whole
retry budget, sleeping 10 seconds before each retry, and yields `None`. -/
theorem query_loop_all_503 (b : PyVal) (fuel : Nat) : ∀ (attempt acc : Nat),
    HuggingFaceProcessor.query_huggingface_loop (fun _ => HuggingFaceProcessor.HFResp.resp 503 b)
      attempt fuel acc = (Option.none, attempt + fuel, acc + 10 * fuel) := by
  induction fuel with
  | zero => intro attempt acc; simp [HuggingFaceProcessor.query_huggingface_loop]
  | succ f ih =>
    intro attempt acc
    simp only [HuggingFaceProcessor.query_huggingface_loop]
    rw [if_neg (show (503 : Nat) ≠ 200 by decide), if_true, ih]
    simp only [Prod.mk.injEq]
    and_intros <;> first
      | trivial
      | omega

/-- A backend that always times out exhausts the whole retry budget with no
sleep and yields `None`. -/
theorem query_loop_all_timeout (fuel : Nat) : ∀ (attempt acc : Nat),
    HuggingFaceProcessor.query_huggingface_loop (fun _ => HuggingFaceProcessor.HFResp.timeoutExc)
      attempt fuel acc = (Option.none, attempt + fuel, acc) := by
  induction fuel with
  | zero => intro attempt acc; simp [HuggingFaceProcessor.query_huggingface_loop]
  | succ f ih =>
    intro attempt acc
    simp only [HuggingFaceProcessor.query_huggingface_loop, ih, Prod.mk.injEq]
    and_intros <;> first
      | trivial
      | omega

/-- C4 (amended): `_query_huggingface` retries only model warm-up (HTTP 503,
after a fixed 10-second sleep) and timeouts, up to the bounded `max_retries`
attempts, before giving up with `None`; any other non-200 status — rate
limiting (429) included — and any non-timeout request error make it give up
after the first attempt, with no retry and no backoff. A 200 response
returns its body at once. -/
theorem query_huggingface_retry_discipline (b : PyVal) (n c : Nat)
    (h200 : c ≠ 200) (h503 : c ≠ 503) (hn : 0 < n) :
    HuggingFaceProcessor.query_huggingface (fun _ => HuggingFaceProcessor.HFResp.resp 503 b) n =
      (Option.none, n, 10 * n)
    ∧ HuggingFaceProcessor.query_huggingface (fun _ => HuggingFaceProcessor.HFResp.timeoutExc) n =
      (Option.none, n, 0)
    ∧ HuggingFaceProcessor.query_huggingface (fun _ => HuggingFaceProcessor.HFResp.resp c b) n =
      (Option.none, 1, 0)
    ∧ HuggingFaceProcessor.query_huggingface (fun _ => HuggingFaceProcessor.HFResp.otherExc) n =
      (Option.none, 1, 0)
    ∧ HuggingFaceProcessor.query_huggingface (fun _ => HuggingFaceProcessor.HFResp.resp 200 b) n =
      (some b, 1, 0) := by
  obtain ⟨m, rfl⟩ : ∃ m, n = m + 1 := ⟨n - 1, by omega⟩
  refine ⟨?_, ?_, ?_, ?_, ?_⟩
  · rw [HuggingFaceProcessor.query_huggingface, query_loop_all_503]
    simp only [Prod.mk.injEq]
    and_intros <;> first
      | trivial
      | omega
  · rw [HuggingFaceProcessor.query_huggingface, query_loop_all_timeout]
    simp only [Prod.mk.injEq]
    and_intros <;> first
      | trivial
      | omega
  · simp [HuggingFaceProcessor.query_huggingface,
      HuggingFaceProcessor.query_huggingface_loop, h200, h503]
  · rfl
  · rfl

/-- Witness for C4 at a concrete backend: status 429 with the default
`max_retries = 3`. -/
theorem query_huggingface_retry_discipline_witness :
    (429 : Nat) ≠ 200 ∧ (429 : Nat) ≠ 503 ∧ (0 : Nat) < 3 ∧
    (HuggingFaceProcessor.query_huggingface
        (fun _ => HuggingFaceProcessor.HFResp.resp 503 PyVal.none) 3 =
      (Option.none, 3, 10 * 3)
    ∧ HuggingFaceProcessor.query_huggingface
        (fun _ => HuggingFaceProcessor.HFResp.timeoutExc) 3 = (Option.none, 3, 0)
    ∧ HuggingFaceProcessor.query_huggingface
        (fun _ => HuggingFaceProcessor.HFResp.resp 429 PyVal.none) 3 = (Option.none, 1, 0)
    ∧ HuggingFaceProcessor.query_huggingface
        (fun _ => HuggingFaceProcessor.HFResp.otherExc) 3 = (Option.none, 1, 0)
    ∧ HuggingFaceProcessor.query_huggingface
        (fun _ => HuggingFaceProcessor.HFResp.resp 200 PyVal.none) 3 =
      (some PyVal.none, 1, 0)) :=
  ⟨by decide, by decide, by decide,
   query_huggingface_retry_discipline PyVal.none 3 429 (by decide) (by decide) (by decide)⟩

/-- Counterexample to C4 as stated: a rate-limited call (status 429) is not
reattempted — with 3 attempts allowed, the loop gives up after a single
request and no backoff sleep. -/
theorem query_huggingface_rate_limit_not_retried :
    HuggingFaceProcessor.query_huggingface
      (fun _ => HuggingFaceProcessor.HFResp.resp 429 PyVal.none) 3 =
      (Option.none, 1, 0) ∧ (1 : Nat) < 3 :=
  ⟨rfl, by omega⟩

/-- C3 (amended): the analysis `keywords` field is the top-8 (not top-10)
slice of the frequency ranking: `most_common(10)` sorted by count
descending with ties in first-occurrence order, then cut to 8 entries; its
length is `min 8 (number of distinct surviving tokens)`, so it is at most 8
and equals 8 whenever at least 8 distinct tokens survive filtering. -/
theorem analysis_keywords_top_eight (nl : NLTK) (content : String) :
    LocalAIProcessor.analyze_keywords nl content =
      ((List.insertionSort LocalAIProcessor.rankRel
        (LocalAIProcessor.counter_items (LocalAIProcessor.filtered_words nl content))).map
        (fun e => e.1)).take 8
    ∧ (LocalAIProcessor.analyze_keywords nl content).length =
      min 8 (LocalAIProcessor.uniqueFirst (LocalAIProcessor.filtered_words nl content)).length
    ∧ List.Sorted LocalAIProcessor.rankRel
        (List.insertionSort LocalAIProcessor.rankRel
          (LocalAIProcessor.counter_items (LocalAIProcessor.filtered_words nl content)))
    ∧ List.Perm
        (List.insertionSort LocalAIProcessor.rankRel
          (LocalAIProcessor.counter_items (LocalAIProcessor.filtered_words nl content)))
        (LocalAIProcessor.counter_items (LocalAIProcessor.filtered_words nl content))
    ∧ List.lookup "keywords" (LocalAIProcessor.analyze_content nl content) =
      some (PyVal.list ((LocalAIProcessor.analyze_keywords nl content).map PyVal.str)) := by
  refine ⟨?_, ?_, List.sorted_insertionSort _ _, List.perm_insertionSort _ _, rfl⟩
  · simp [LocalAIProcessor.analyze_keywords, LocalAIProcessor.keywords_local,
      LocalAIProcessor.most_common, List.map_take, List.take_take]
  · have hlen : (List.insertionSort LocalAIProcessor.rankRel
        (LocalAIProcessor.counter_items (LocalAIProcessor.filtered_words nl content))).length =
        (LocalAIProcessor.uniqueFirst (LocalAIProcessor.filtered_words nl content)).length := by
      rw [(List.perm_insertionSort _ _).length_eq]
      simp [LocalAIProcessor.counter_items]
    simp [LocalAIProcessor.analyze_keywords, LocalAIProcessor.keywords_local,
      LocalAIProcessor.most_common, List.length_take, hlen]
    omega

/-- Counterexample to C3 as stated: on a text where exactly ten distinct
tokens survive filtering (with the real NLTK English stop-word list and the
tokenizers' behaviour on plain space-separated text), the returned
`keywords` field has 8 entries, not 10. -/
theorem analysis_keywords_not_top_ten :
    (LocalAIProcessor.uniqueFirst (LocalAIProcessor.filtered_words nltkPlain tenWordText)).length = 10
    ∧ (LocalAIProcessor.analyze_keywords nltkPlain tenWordText).length = 8 :=
  ⟨rfl, rfl⟩

end Spec2Proof
